import Mathlib

/-!
Shallow embedding of the Form 8949 generator (`src/app.py`) and proofs about
its data-processing pipeline: currency normalization, record building with
tax-year filtering, short/long-term partitioning, pagination, and the
aggregate-totals logic of the two form renderers.

Monetary values and timestamps are modelled as rationals (`ℚ`); Python floats
are modelled as exact rationals, which is faithful for the decimal literals
and arithmetic the claims are about.  Timestamps are seconds since the Unix
epoch, matching the `timestampSEC` columns and `pd.Timestamp` comparisons.
-/

namespace Form8949

/-- A raw scalar cell value as it arrives from the CSV via pandas: either a
missing value (NaN), a string, or a number. -/
inductive CVal where
  | nan : CVal
  | str : String → CVal
  | num : ℚ → CVal
deriving DecidableEq

/-- Python `str.strip()` (default whitespace set), modelled on the character
list of the string. -/
def pyStrip (s : String) : String :=
  ⟨((s.data.dropWhile Char.isWhitespace).reverse.dropWhile Char.isWhitespace).reverse⟩

/-- Python `str.rstrip(c)` for a single strip character `c`. -/
def pyRstrip (c : Char) (s : String) : String :=
  ⟨(s.data.reverse.dropWhile (fun d => d = c)).reverse⟩

/-- Digits of a decimal numeral to a natural number, most significant first. -/
def digitsToNat (cs : List Char) : ℕ :=
  cs.foldl (fun a c => 10 * a + (c.toNat - 48)) 0

/-- The components of a successfully parsed Python float literal:
sign, integer-part value, fraction-part value and digit count, exponent sign
and value.  Kept separate from the rational value so that parsing is a purely
structural computation. -/
structure PyNum where
  neg : Bool
  ip : ℕ
  fp : ℕ
  flen : ℕ
  eneg : Bool
  ev : ℕ
deriving DecidableEq

/-- The exact rational value denoted by a parsed float literal. -/
def PyNum.toRat (p : PyNum) : ℚ :=
  let mant : ℚ := (p.ip : ℚ) + (p.fp : ℚ) / 10 ^ p.flen
  let sm : ℚ := if p.neg then -mant else mant
  if p.eneg then sm / 10 ^ p.ev else sm * 10 ^ p.ev

/-- Exponent suffix of a Python float literal: optional sign then a nonempty
digit run consuming the rest of the input. -/
def parseExpPart (cs : List Char) : Option (Bool × ℕ) :=
  let (eneg, cs1) :=
    match cs with
    | '-' :: r => (true, r)
    | '+' :: r => (false, r)
    | _ => (false, cs)
  let ds := cs1.takeWhile Char.isDigit
  let rest := cs1.dropWhile Char.isDigit
  if ds = [] ∨ rest ≠ [] then none else some (eneg, digitsToNat ds)

/-- After the integer part of a float literal: either end of input, a
fractional part (with optional exponent), or an exponent directly.  `hasInt`
records whether the integer digit run was nonempty.  Returns fraction value,
fraction length, exponent sign, exponent value. -/
def parseAfterInt (hasInt : Bool) (cs : List Char) : Option (ℕ × ℕ × Bool × ℕ) :=
  match cs with
  | [] => if hasInt then some (0, 0, false, 0) else none
  | '.' :: rest =>
      let fds := rest.takeWhile Char.isDigit
      let rest2 := rest.dropWhile Char.isDigit
      if ¬ hasInt ∧ fds = [] then none
      else
        match rest2 with
        | [] => some (digitsToNat fds, fds.length, false, 0)
        | 'e' :: er => (parseExpPart er).map fun be => (digitsToNat fds, fds.length, be.1, be.2)
        | 'E' :: er => (parseExpPart er).map fun be => (digitsToNat fds, fds.length, be.1, be.2)
        | _ => none
  | 'e' :: er => if hasInt then (parseExpPart er).map fun be => (0, 0, be.1, be.2) else none
  | 'E' :: er => if hasInt then (parseExpPart er).map fun be => (0, 0, be.1, be.2) else none
  | _ => none

/-- Structural part of Python `float(string)` on an already-stripped string:
optional sign, then `digits [. digits] [exponent]` or `. digits [exponent]`.
Returns `none` exactly when Python raises `ValueError`.  (Out of the model's
scope: digit-group underscores and the non-finite literals
`inf`/`infinity`/`nan`, which no claim exercises.) -/
def pyParse? (s : String) : Option PyNum :=
  let (neg, cs) :=
    match s.data with
    | '-' :: r => (true, r)
    | '+' :: r => (false, r)
    | _ => (false, s.data)
  let ids := cs.takeWhile Char.isDigit
  let rest := cs.dropWhile Char.isDigit
  (parseAfterInt (!ids.isEmpty) rest).map fun r =>
    ⟨neg, digitsToNat ids, r.1, r.2.1, r.2.2.1, r.2.2.2⟩

/-- Python `float(string)` modelled over exact rationals. -/
def pyFloat? (s : String) : Option ℚ :=
  (pyParse? s).map PyNum.toRat

/-- `pd.isna(value) or value == '' or value == '-' or value == ' -   '`
(the string comparisons only succeed on string cells). -/
def isBlankRaw (v : CVal) : Bool :=
  match v with
  | .nan => true
  | .str s => s == "" || s == "-" || s == " -   "
  | .num _ => false

/-- `str_val in ['-', ' -   ', '', 'null', 'None']` after stripping. -/
def isBlankCleaned (s : String) : Bool :=
  s == "-" || s == " -   " || s == "" || s == "null" || s == "None"

/-- `'(' in str_val and ')' in str_val`. -/
def hasParens (s : String) : Bool :=
  s.data.contains '(' && s.data.contains ')'

/-- `str_val.replace('(', '').replace(')', '')`: removes every parenthesis. -/
def dropParens (s : String) : String :=
  ⟨s.data.filter (fun c => ¬ (c = '(' ∨ c = ')'))⟩

/-- The character class of the regex `[,$\s]` (comma, dollar, whitespace). -/
def moneyStripChars : List Char :=
  [',', '$', ' ', '\t', '\n', '\r', Char.ofNat 11, Char.ofNat 12]

/-- `re.sub(r'[,$\s]', '', str_val)`. -/
def stripMoneyChars (s : String) : String :=
  ⟨s.data.filter (fun c => ¬ moneyStripChars.contains c)⟩

/-- `clean_bitwave_currency_value` from `src/app.py` (lines 461-486): blank
markers map to 0, a string containing both parentheses is treated as an
accounting negative, currency symbols / commas / whitespace are stripped, and
any parse failure yields `0.0`.  A numeric (non-NaN) cell passes through
`str()` and `float()` unchanged, since Python's float repr round-trips. -/
def clean_bitwave_currency_value (v : CVal) : ℚ :=
  if isBlankRaw v then 0
  else
    match v with
    | .nan => 0
    | .num q => q
    | .str s0 =>
      let s1 := pyStrip s0
      if isBlankCleaned s1 then 0
      else
        let neg := hasParens s1
        let s2 := if neg then dropParens s1 else s1
        let s3 := stripMoneyChars s2
        match pyFloat? s3 with
        | some q => if neg then -q else q
        | none => 0

/-- Gregorian leap-year test. -/
def isLeap (y : ℕ) : Bool :=
  y % 4 = 0 && (y % 100 ≠ 0 || y % 400 = 0)

/-- Days in a calendar year. -/
def daysInYear (y : ℕ) : ℕ :=
  if isLeap y then 366 else 365

/-- Seconds since the Unix epoch of `pd.Timestamp('{y}-01-01')` (midnight,
January 1 of year `y`), valid for `y ≥ 1970` (the app offers 2020-2024). -/
def epochOfYearStart (y : ℕ) : ℤ :=
  86400 * ((List.range (y - 1970)).foldl (fun a i => a + (daysInYear (1970 + i) : ℤ)) 0)

/-- `tax_year_start = pd.Timestamp(f'{tax_year}-01-01')` as epoch seconds. -/
def taxYearStart (y : ℕ) : ℤ :=
  epochOfYearStart y

/-- `tax_year_end = pd.Timestamp(f'{tax_year}-12-31 23:59:59')` as epoch
seconds: one second before midnight of January 1 of the next year. -/
def taxYearEnd (y : ℕ) : ℤ :=
  epochOfYearStart (y + 1) - 1

/-- One `sell` row of the Bitwave actions report, with the columns
`process_bitwave_transactions` reads.  The monetary columns (which have
padded names like `' proceeds '`) arrive as raw cell values. -/
structure Row where
  action : String
  asset : String
  assetUnitAdj : ℚ
  timestampSEC : CVal
  lotAcquisitionTimestampSEC : CVal
  proceeds : CVal
  costBasisRelieved : CVal
  shortTermGainLoss : CVal
  longTermGainLoss : CVal
  lotId : String
  txnId : String
deriving DecidableEq

/-- Timestamp extraction (`src/app.py` lines 342-370): reject NaN, numeric
zero and the empty string, then convert with `float()` and
`pd.to_datetime(..., unit='s', errors='coerce')`.  `none` means the source
raises (or coerces to NaT) and the row is rejected.  In-range values convert
exactly; the NaT case for out-of-range epochs is outside the model. -/
def parseTimestamp (v : CVal) : Option ℚ :=
  match v with
  | .nan => none
  | .num q => if q = 0 then none else some q
  | .str s => if s = "" then none else pyFloat? s

/-- The short/long-term classification of `src/app.py` lines 388-402: trust
an unambiguous Bitwave signal, otherwise fall back to the holding period and
the combined total.  Returns `(is_short_term, bitwave_gain_loss)`. -/
def bitwaveClassify (short_term_gl long_term_gl : ℚ) (holding_days : ℤ) : Bool × ℚ :=
  if short_term_gl ≠ 0 ∧ long_term_gl = 0 then (true, short_term_gl)
  else if long_term_gl ≠ 0 ∧ short_term_gl = 0 then (false, long_term_gl)
  else (decide (holding_days ≤ 365), short_term_gl + long_term_gl)

/-- `"0"`-padding on the left to `k` characters, as in a fixed-width numeral. -/
def padLeftZeros (k : ℕ) (s : String) : String :=
  ⟨List.replicate (k - s.length) '0' ++ s.data⟩

/-- `f"{abs(x):.8f}"`: the absolute value rendered with exactly eight decimal
places.  Rounding of the ninth decimal models Python's float formatting;
round-half-even ties do not arise in the claims. -/
def fmt8abs (q : ℚ) : String :=
  let n : ℕ := (⌊|q| * 10 ^ 8 + 1 / 2⌋).toNat
  toString (n / 10 ^ 8) ++ "." ++ padLeftZeros 8 (toString (n % 10 ^ 8))

/-- The description field of `src/app.py` line 416:
`f"{abs(row['assetUnitAdj']):.8f} {row['asset']}".rstrip('0').rstrip('.')`.
Both strips act on the whole combined string. -/
def buildDescription (qty : ℚ) (asset : String) : String :=
  pyRstrip '.' (pyRstrip '0' (fmt8abs qty ++ " " ++ asset))

/-- The canonical transaction record built for each accepted row
(`src/app.py` lines 415-426). -/
structure Txn where
  description : String
  date_acquired : ℚ
  date_sold : ℚ
  proceeds : ℚ
  cost_basis : ℚ
  gain_loss : ℚ
  is_short_term : Bool
  holding_days : ℤ
  lot_id : String
  txn_id : String
deriving DecidableEq

/-- Outcome of one iteration of the row loop: rejected with a warning
(`error_count`), silently filtered out by tax year (`filtered_out_count`), or
accepted.  An accepted row carries the record plus whether the
calculated-vs-Bitwave mismatch warning (lines 408-412) and the ambiguous
classification warning (lines 399-402) fire. -/
inductive RowResult where
  | rejected : RowResult
  | filtered : RowResult
  | accepted : Txn → Bool → Bool → RowResult
deriving DecidableEq

/-- The body of the row loop of `process_bitwave_transactions`
(`src/app.py` lines 339-434) for a single `sell` row. -/
def processRow (tax_year : ℕ) (row : Row) : RowResult :=
  match parseTimestamp row.timestampSEC with
  | none => .rejected
  | some date_sold =>
    match parseTimestamp row.lotAcquisitionTimestampSEC with
    | none => .rejected
    | some date_acquired =>
      let holding_days : ℤ := ⌊(date_sold - date_acquired) / 86400⌋
      if ¬ ((taxYearStart tax_year : ℚ) ≤ date_sold ∧ date_sold ≤ (taxYearEnd tax_year : ℚ))
      then .filtered
      else
        let proceeds := clean_bitwave_currency_value row.proceeds
        let cost_basis := clean_bitwave_currency_value row.costBasisRelieved
        let short_term_gl := clean_bitwave_currency_value row.shortTermGainLoss
        let long_term_gl := clean_bitwave_currency_value row.longTermGainLoss
        let cls := bitwaveClassify short_term_gl long_term_gl holding_days
        let calculated_gain_loss := proceeds - cost_basis
        .accepted
          { description := buildDescription row.assetUnitAdj row.asset
            date_acquired := date_acquired
            date_sold := date_sold
            proceeds := proceeds
            cost_basis := cost_basis
            gain_loss := cls.2
            is_short_term := cls.1
            holding_days := holding_days
            lot_id := row.lotId
            txn_id := row.txnId }
          (decide (|calculated_gain_loss - cls.2| > 1 / 50))
          (decide (short_term_gl ≠ 0 ∧ long_term_gl ≠ 0))

/-- The observable result of `process_bitwave_transactions`: the record list
plus the summary counters, with the two per-row warning kinds tallied. -/
structure ProcessResult where
  transactions : List Txn
  processedCount : ℕ
  errorCount : ℕ
  filteredOutCount : ℕ
  mismatchWarnCount : ℕ
  ambiguousWarnCount : ℕ
deriving DecidableEq

/-- One fold step: route a row's `RowResult` into the accumulated state,
mirroring the `continue`/append paths of the loop. -/
def processStep (tax_year : ℕ) (acc : ProcessResult) (row : Row) : ProcessResult :=
  match processRow tax_year row with
  | .rejected => { acc with errorCount := acc.errorCount + 1 }
  | .filtered => { acc with filteredOutCount := acc.filteredOutCount + 1 }
  | .accepted t mw aw =>
      { acc with
        transactions := acc.transactions ++ [t]
        processedCount := acc.processedCount + 1
        mismatchWarnCount := acc.mismatchWarnCount + (if mw then 1 else 0)
        ambiguousWarnCount := acc.ambiguousWarnCount + (if aw then 1 else 0) }

/-- `process_bitwave_transactions` from `src/app.py` (lines 316-459): filter
the frame to `sell` actions, then run the row loop.  (The Streamlit summary
messages are presentation only and are not modelled.) -/
def process_bitwave_transactions (tax_year : ℕ) (df : List Row) : ProcessResult :=
  let sell_actions := df.filter (fun r => r.action == "sell")
  sell_actions.foldl (processStep tax_year) ⟨[], 0, 0, 0, 0, 0⟩

/-- `separate_bitwave_transactions_by_term` from `src/app.py` lines 488-492. -/
def separate_bitwave_transactions_by_term (transactions : List Txn) : List Txn × List Txn :=
  (transactions.filter (fun t => t.is_short_term),
   transactions.filter (fun t => !t.is_short_term))

/-- The three aggregate sums drawn in the totals row. -/
structure Totals where
  proceeds : ℚ
  cost_basis : ℚ
  gain_loss : ℚ
deriving DecidableEq

/-- `sum(t[...] for t in all_transactions)` for the three monetary fields. -/
def partitionTotals (l : List Txn) : Totals :=
  ⟨(l.map (fun t => t.proceeds)).sum,
   (l.map (fun t => t.cost_basis)).sum,
   (l.map (fun t => t.gain_loss)).sum⟩

/-- The totals-row behavior of `create_form_with_official_template`
(`src/app.py` lines 707-732): drawn only when
`page_num == total_pages and len(transactions) > 0`, and computed from
`all_transactions`.  `none` means no totals are drawn on the page. -/
def create_form_with_official_template_totals
    (page_transactions : List Txn) (page_num total_pages : ℕ)
    (all_transactions : List Txn) : Option Totals :=
  if page_num = total_pages ∧ 0 < page_transactions.length
  then some (partitionTotals all_transactions)
  else none

/-- The totals-row behavior of the fallback `create_custom_form_8949`
(`src/app.py` lines 847-860): drawn only when `page_num == total_pages`,
computed from `all_transactions`. -/
def create_custom_form_8949_totals
    (page_num total_pages : ℕ) (all_transactions : List Txn) : Option Totals :=
  if page_num = total_pages then some (partitionTotals all_transactions) else none

/-- One generated page: the slice of records placed on it, its 1-based page
number, and the totals each renderer draws on it. -/
structure RenderedPage where
  pageTxns : List Txn
  pageNum : ℕ
  officialTotals : Option Totals
  customTotals : Option Totals
deriving DecidableEq

/-- `total_pages = (len(transactions) + 14 - 1) // 14`. -/
def numPages (transactions : List Txn) : ℕ :=
  (transactions.length + 14 - 1) / 14

/-- `generate_form_8949_pages` from `src/app.py` (lines 526-565), with the
PDF layer abstracted to the data drawn: for page index `p` the slice
`transactions[p*14 : p*14+14]` is rendered, and both renderers receive
`page_num = p + 1`, `total_pages`, and the full `transactions` list as
`all_transactions`. -/
def generate_form_8949_pages (transactions : List Txn) : List RenderedPage :=
  (List.range (numPages transactions)).map fun p =>
    { pageTxns := (transactions.drop (p * 14)).take 14
      pageNum := p + 1
      officialTotals :=
        create_form_with_official_template_totals
          ((transactions.drop (p * 14)).take 14) (p + 1) (numPages transactions) transactions
      customTotals :=
        create_custom_form_8949_totals (p + 1) (numPages transactions) transactions }


/-- A `sell` row whose sale instant is exactly `2023-12-31 23:59:59`
(epoch 1704067199), acquired at epoch 1700000000, with proceeds `$100.00`,
cost basis `40`, short-term gain `60` and a blank long-term column. -/
def rowEndOf2023 : Row :=
  { action := "sell"
    asset := "BTC"
    assetUnitAdj := 1
    timestampSEC := .num 1704067199
    lotAcquisitionTimestampSEC := .num 1700000000
    proceeds := .str "$100.00"
    costBasisRelieved := .str "40"
    shortTermGainLoss := .str "60"
    longTermGainLoss := .str "-"
    lotId := "L1"
    txnId := "T1" }

/-- The same sale one second later: exactly `2024-01-01 00:00:00`. -/
def rowStartOf2024 : Row :=
  { rowEndOf2023 with timestampSEC := .num 1704067200 }

/-- A row with an unusable (missing) sale timestamp. -/
def rowBadTs : Row :=
  { rowEndOf2023 with timestampSEC := .nan }

/-- A 2023 sale with both Bitwave gain/loss columns blank (hence zero after
normalization) but a nonzero arithmetic gain: proceeds 100, cost basis 40. -/
def rowBothZero : Row :=
  { action := "sell"
    asset := "ETH"
    assetUnitAdj := 2
    timestampSEC := .num 1690000000
    lotAcquisitionTimestampSEC := .num 1650000000
    proceeds := .str "$100.00"
    costBasisRelieved := .str "$40.00"
    shortTermGainLoss := .str "-"
    longTermGainLoss := .str "-"
    lotId := "L2"
    txnId := "T2" }

/-- A row whose asset symbol ends in the character `'0'`. -/
def rowB20 : Row :=
  { rowEndOf2023 with asset := "B20", assetUnitAdj := 22, txnId := "T3" }

/-- The record produced for `rowEndOf2023` in tax year 2023. -/
def recEndOf2023 : Txn :=
  { description := "1.00000000 BTC"
    date_acquired := 1700000000
    date_sold := 1704067199
    proceeds := 100
    cost_basis := 40
    gain_loss := 60
    is_short_term := true
    holding_days := 47
    lot_id := "L1"
    txn_id := "T1" }

/-- The record produced for `rowBothZero` in tax year 2023. -/
def recBothZero : Txn :=
  { description := "2.00000000 ETH"
    date_acquired := 1650000000
    date_sold := 1690000000
    proceeds := 100
    cost_basis := 40
    gain_loss := 0
    is_short_term := false
    holding_days := 462
    lot_id := "L2"
    txn_id := "T2" }

/-- The record produced for `rowB20` in tax year 2023. -/
def recB20 : Txn :=
  { description := "22.00000000 B2"
    date_acquired := 1700000000
    date_sold := 1704067199
    proceeds := 100
    cost_basis := 40
    gain_loss := 60
    is_short_term := true
    holding_days := 47
    lot_id := "L1"
    txn_id := "T3" }

/-- A minimal record for pagination witnesses. -/
def txn0 : Txn :=
  { description := "10 HNT"
    date_acquired := 0
    date_sold := 0
    proceeds := 1
    cost_basis := 2
    gain_loss := 3
    is_short_term := true
    holding_days := 4
    lot_id := "l"
    txn_id := "t" }


/-- Evaluation shape of the string path of `clean_bitwave_currency_value`,
with the parse stage exposed structurally. -/
theorem clean_str_eval (s : String) :
    clean_bitwave_currency_value (.str s) =
      if isBlankRaw (.str s) then 0
      else if isBlankCleaned (pyStrip s) then 0
      else
        match pyParse? (stripMoneyChars
            (if hasParens (pyStrip s) then dropParens (pyStrip s) else pyStrip s)) with
        | some p => if hasParens (pyStrip s) then -p.toRat else p.toRat
        | none => 0 := by
  unfold clean_bitwave_currency_value pyFloat?
  by_cases h0 : isBlankRaw (.str s) = true
  · simp [h0]
  · simp only [Bool.not_eq_true] at h0
    simp only [h0, Bool.false_eq_true, if_false]
    by_cases h1 : isBlankCleaned (pyStrip s) = true
    · simp [h1]
    · simp only [Bool.not_eq_true] at h1
      simp only [h1, Bool.false_eq_true, if_false]
      cases hp : pyParse? (stripMoneyChars
          (if hasParens (pyStrip s) then dropParens (pyStrip s) else pyStrip s)) <;>
        simp [hp]

/-- A non-blank parenthesized string evaluates to the negation of its parsed
inner value. -/
theorem clean_str_neg (s : String) (p : PyNum)
    (h0 : isBlankRaw (.str s) = false)
    (h1 : isBlankCleaned (pyStrip s) = false)
    (h2 : hasParens (pyStrip s) = true)
    (h3 : pyParse? (stripMoneyChars (dropParens (pyStrip s))) = some p) :
    clean_bitwave_currency_value (.str s) = -p.toRat := by
  rw [clean_str_eval, h0, h2]
  simp only [Bool.false_eq_true, if_false, h1, h3, if_true]

/-- A non-blank unparenthesized string evaluates to its parsed value. -/
theorem clean_str_pos (s : String) (p : PyNum)
    (h0 : isBlankRaw (.str s) = false)
    (h1 : isBlankCleaned (pyStrip s) = false)
    (h2 : hasParens (pyStrip s) = false)
    (h3 : pyParse? (stripMoneyChars (pyStrip s)) = some p) :
    clean_bitwave_currency_value (.str s) = p.toRat := by
  rw [clean_str_eval, h0, h2]
  simp only [Bool.false_eq_true, if_false, h1, h3]

/-- Any string whose cleaned form fails to parse evaluates to `0`. -/
theorem clean_str_fail (s : String)
    (h3 : pyParse? (stripMoneyChars
        (if hasParens (pyStrip s) then dropParens (pyStrip s) else pyStrip s)) = none) :
    clean_bitwave_currency_value (.str s) = 0 := by
  rw [clean_str_eval]
  by_cases h0 : isBlankRaw (.str s) = true
  · simp [h0]
  · simp only [Bool.not_eq_true] at h0
    by_cases h1 : isBlankCleaned (pyStrip s) = true
    · simp [h0, h1]
    · simp only [Bool.not_eq_true] at h1
      simp [h0, h1, h3]

/-- C5: `clean_bitwave_currency_value` maps the spec's reference inputs to the
stated values — `"(1,234.56)"` to `-1234.56`, `"$45.00"` to `45.0`, `""`,
`"-"` and `"abc"` to `0.0` — and, in general, a non-blank parenthesized
magnitude (after currency symbols, commas and whitespace are stripped)
evaluates to the negation of the enclosed magnitude. -/
theorem claim_C5 :
    clean_bitwave_currency_value (.str "(1,234.56)") = -1234.56 ∧
    clean_bitwave_currency_value (.str "$45.00") = 45 ∧
    clean_bitwave_currency_value (.str "") = 0 ∧
    clean_bitwave_currency_value (.str "-") = 0 ∧
    clean_bitwave_currency_value (.str "abc") = 0 ∧
    ∀ (s : String) (p : PyNum),
      isBlankRaw (.str s) = false →
      isBlankCleaned (pyStrip s) = false →
      hasParens (pyStrip s) = true →
      pyParse? (stripMoneyChars (dropParens (pyStrip s))) = some p →
      p.neg = false →
      clean_bitwave_currency_value (.str s) = -p.toRat := by
  refine ⟨?_, ?_, ?_, ?_, ?_, ?_⟩
  · rw [clean_str_neg "(1,234.56)" ⟨false, 1234, 56, 2, false, 0⟩ (by decide) (by decide)
      (by decide) (by decide)]
    norm_num [PyNum.toRat]
  · rw [clean_str_pos "$45.00" ⟨false, 45, 0, 2, false, 0⟩ (by decide) (by decide)
      (by decide) (by decide)]
    norm_num [PyNum.toRat]
  · decide
  · decide
  · exact clean_str_fail "abc" (by decide)
  · intro s p h0 h1 h2 h3 _
    exact clean_str_neg s p h0 h1 h2 h3

/-- Witness for C5 at the concrete input `"(7)"`. -/
theorem claim_C5_witness :
    clean_bitwave_currency_value (.str "(7)") = -(PyNum.toRat ⟨false, 7, 0, 0, false, 0⟩) :=
  claim_C5.2.2.2.2.2 "(7)" ⟨false, 7, 0, 0, false, 0⟩ (by decide) (by decide) (by decide)
    (by decide) rfl

/-- C6: the normalizer is total — every cell value yields a rational result —
and whenever the cleaned string fails numeric parsing the result is `0.0`
rather than an error. -/
theorem claim_C6 :
    (∀ v : CVal, ∃ q : ℚ, clean_bitwave_currency_value v = q) ∧
    (∀ s : String,
      pyParse? (stripMoneyChars
          (if hasParens (pyStrip s) then dropParens (pyStrip s) else pyStrip s)) = none →
      clean_bitwave_currency_value (.str s) = 0) := by
  refine ⟨fun v => ⟨_, rfl⟩, fun s h => clean_str_fail s h⟩

/-- Witness for C6 at the concrete unparseable input `"xy"`. -/
theorem claim_C6_witness :
    clean_bitwave_currency_value (.str "xy") = 0 :=
  claim_C6.2 "xy" (by decide)

/-- C10: any string containing both `'('` and `')'` anywhere is treated as
parenthesized-negative — so `"(-5)"` double-negates to `5.0` — and a
parenthesized string whose content fails to parse, such as `"(abc)"`,
returns `0.0`. -/
theorem claim_C10 :
    clean_bitwave_currency_value (.str "(-5)") = 5 ∧
    clean_bitwave_currency_value (.str "(abc)") = 0 ∧
    (∀ (s : String) (p : PyNum),
      isBlankRaw (.str s) = false →
      isBlankCleaned (pyStrip s) = false →
      hasParens (pyStrip s) = true →
      pyParse? (stripMoneyChars (dropParens (pyStrip s))) = some p →
      clean_bitwave_currency_value (.str s) = -p.toRat) ∧
    (∀ s : String,
      hasParens (pyStrip s) = true →
      pyParse? (stripMoneyChars (dropParens (pyStrip s))) = none →
      clean_bitwave_currency_value (.str s) = 0) := by
  refine ⟨?_, ?_, fun s p h0 h1 h2 h3 => clean_str_neg s p h0 h1 h2 h3, fun s h2 h3 => ?_⟩
  · rw [clean_str_neg "(-5)" ⟨true, 5, 0, 0, false, 0⟩ (by decide) (by decide)
      (by decide) (by decide)]
    norm_num [PyNum.toRat]
  · exact clean_str_fail "(abc)" (by decide)
  · exact clean_str_fail s (by rw [if_pos h2]; exact h3)

/-- Witness for C10 at the concrete input `"(-8)"`. -/
theorem claim_C10_witness :
    clean_bitwave_currency_value (.str "(-8)") = -(PyNum.toRat ⟨true, 8, 0, 0, false, 0⟩) :=
  claim_C10.2.2.1 "(-8)" ⟨true, 8, 0, 0, false, 0⟩ (by decide) (by decide) (by decide) (by decide)

/-- `"$100.00"` normalizes to `100`. -/
theorem clean_dollar100 : clean_bitwave_currency_value (.str "$100.00") = 100 := by
  rw [clean_str_pos "$100.00" ⟨false, 100, 0, 2, false, 0⟩ (by decide) (by decide)
    (by decide) (by decide)]
  norm_num [PyNum.toRat]

/-- `"$40.00"` normalizes to `40`. -/
theorem clean_dollar40 : clean_bitwave_currency_value (.str "$40.00") = 40 := by
  rw [clean_str_pos "$40.00" ⟨false, 40, 0, 2, false, 0⟩ (by decide) (by decide)
    (by decide) (by decide)]
  norm_num [PyNum.toRat]

/-- `"40"` normalizes to `40`. -/
theorem clean_str40 : clean_bitwave_currency_value (.str "40") = 40 := by
  rw [clean_str_pos "40" ⟨false, 40, 0, 0, false, 0⟩ (by decide) (by decide)
    (by decide) (by decide)]
  norm_num [PyNum.toRat]

/-- `"60"` normalizes to `60`. -/
theorem clean_str60 : clean_bitwave_currency_value (.str "60") = 60 := by
  rw [clean_str_pos "60" ⟨false, 60, 0, 0, false, 0⟩ (by decide) (by decide)
    (by decide) (by decide)]
  norm_num [PyNum.toRat]

/-- The blank marker `"-"` normalizes to `0`. -/
theorem clean_dash : clean_bitwave_currency_value (.str "-") = 0 := by decide

/-- An unambiguous short-term signal is trusted. -/
theorem bitwaveClassify_st (st lt : ℚ) (hd : ℤ) (h1 : st ≠ 0) (h2 : lt = 0) :
    bitwaveClassify st lt hd = (true, st) := by
  unfold bitwaveClassify
  rw [if_pos ⟨h1, h2⟩]

/-- An unambiguous long-term signal is trusted. -/
theorem bitwaveClassify_lt (st lt : ℚ) (hd : ℤ) (h1 : lt ≠ 0) (h2 : st = 0) :
    bitwaveClassify st lt hd = (false, lt) := by
  unfold bitwaveClassify
  rw [if_neg (fun hc => hc.1 h2), if_pos ⟨h1, h2⟩]

/-- With no signal at all, classification falls back to the holding period
and the adopted gain/loss is the (zero) sum of the two columns. -/
theorem bitwaveClassify_none (st lt : ℚ) (hd : ℤ) (h1 : st = 0) (h2 : lt = 0) :
    bitwaveClassify st lt hd = (decide (hd ≤ 365), 0) := by
  unfold bitwaveClassify
  rw [if_neg (fun hc => hc.1 h1), if_neg (fun hc => hc.1 h2), h1, h2, add_zero]

/-- Evaluation of `processRow` on a row whose timestamps parse and whose sale
date falls inside the tax year. -/
theorem processRow_accepted_eval (y : ℕ) (row : Row) (ds da : ℚ)
    (h1 : parseTimestamp row.timestampSEC = some ds)
    (h2 : parseTimestamp row.lotAcquisitionTimestampSEC = some da)
    (hin : (taxYearStart y : ℚ) ≤ ds ∧ ds ≤ (taxYearEnd y : ℚ)) :
    processRow y row = .accepted
      { description := buildDescription row.assetUnitAdj row.asset
        date_acquired := da
        date_sold := ds
        proceeds := clean_bitwave_currency_value row.proceeds
        cost_basis := clean_bitwave_currency_value row.costBasisRelieved
        gain_loss := (bitwaveClassify (clean_bitwave_currency_value row.shortTermGainLoss)
            (clean_bitwave_currency_value row.longTermGainLoss) ⌊(ds - da) / 86400⌋).2
        is_short_term := (bitwaveClassify (clean_bitwave_currency_value row.shortTermGainLoss)
            (clean_bitwave_currency_value row.longTermGainLoss) ⌊(ds - da) / 86400⌋).1
        holding_days := ⌊(ds - da) / 86400⌋
        lot_id := row.lotId
        txn_id := row.txnId }
      (decide (|clean_bitwave_currency_value row.proceeds -
          clean_bitwave_currency_value row.costBasisRelieved -
          (bitwaveClassify (clean_bitwave_currency_value row.shortTermGainLoss)
            (clean_bitwave_currency_value row.longTermGainLoss) ⌊(ds - da) / 86400⌋).2| > 1 / 50))
      (decide (clean_bitwave_currency_value row.shortTermGainLoss ≠ 0 ∧
          clean_bitwave_currency_value row.longTermGainLoss ≠ 0)) := by
  unfold processRow
  simp only [h1, h2]
  rw [if_neg (not_not_intro hin)]

/-- Evaluation of `processRow` on a row whose timestamps parse but whose sale
date falls outside the tax year: silently filtered. -/
theorem processRow_filtered_eval (y : ℕ) (row : Row) (ds da : ℚ)
    (h1 : parseTimestamp row.timestampSEC = some ds)
    (h2 : parseTimestamp row.lotAcquisitionTimestampSEC = some da)
    (hout : ¬ ((taxYearStart y : ℚ) ≤ ds ∧ ds ≤ (taxYearEnd y : ℚ))) :
    processRow y row = .filtered := by
  unfold processRow
  simp only [h1, h2]
  rw [if_pos hout]

/-- Structural inversion of an accepted row: every field of the record, and
both warning flags, are determined by the row as the source computes them. -/
theorem processRow_accepted_inv (y : ℕ) (row : Row) (t : Txn) (mw aw : Bool)
    (h : processRow y row = .accepted t mw aw) :
    t.proceeds = clean_bitwave_currency_value row.proceeds ∧
    t.cost_basis = clean_bitwave_currency_value row.costBasisRelieved ∧
    t.gain_loss = (bitwaveClassify (clean_bitwave_currency_value row.shortTermGainLoss)
        (clean_bitwave_currency_value row.longTermGainLoss) t.holding_days).2 ∧
    t.is_short_term = (bitwaveClassify (clean_bitwave_currency_value row.shortTermGainLoss)
        (clean_bitwave_currency_value row.longTermGainLoss) t.holding_days).1 ∧
    t.description = buildDescription row.assetUnitAdj row.asset ∧
    mw = decide (|t.proceeds - t.cost_basis - t.gain_loss| > 1 / 50) ∧
    aw = decide (clean_bitwave_currency_value row.shortTermGainLoss ≠ 0 ∧
        clean_bitwave_currency_value row.longTermGainLoss ≠ 0) := by
  unfold processRow at h
  cases hts : parseTimestamp row.timestampSEC with
  | none => simp only [hts] at h; exact absurd h (by simp)
  | some ds =>
    simp only [hts] at h
    cases hta : parseTimestamp row.lotAcquisitionTimestampSEC with
    | none => simp only [hta] at h; exact absurd h (by simp)
    | some da =>
      simp only [hta] at h
      by_cases hy : ¬ ((taxYearStart y : ℚ) ≤ ds ∧ ds ≤ (taxYearEnd y : ℚ))
      · rw [if_pos hy] at h; exact absurd h (by simp)
      · rw [if_neg hy] at h
        simp only [RowResult.accepted.injEq] at h
        obtain ⟨ht, hmw, haw⟩ := h
        subst ht hmw haw
        exact ⟨rfl, rfl, rfl, rfl, rfl, rfl, rfl⟩

/-- `pd.Timestamp('2023-01-01')` is epoch second 1672531200. -/
theorem taxYearStart_2023 : taxYearStart 2023 = 1672531200 := by decide

/-- `pd.Timestamp('2023-12-31 23:59:59')` is epoch second 1704067199. -/
theorem taxYearEnd_2023 : taxYearEnd 2023 = 1704067199 := by decide

/-- `pd.Timestamp('2024-01-01')` is epoch second 1704067200. -/
theorem taxYearStart_2024 : taxYearStart 2024 = 1704067200 := by decide

/-- `pd.Timestamp('2024-12-31 23:59:59')` is epoch second 1735689599. -/
theorem taxYearEnd_2024 : taxYearEnd 2024 = 1735689599 := by decide

/-- Evaluation of the fixed-point formatter once the scaled-and-rounded
value is known. -/
theorem fmt8abs_eval (q : ℚ) (n : ℕ) (h : ⌊|q| * 10 ^ 8 + 1 / 2⌋ = (n : ℤ)) :
    fmt8abs q = toString (n / 10 ^ 8) ++ "." ++ padLeftZeros 8 (toString (n % 10 ^ 8)) := by
  unfold fmt8abs
  rw [h, Int.toNat_natCast]

/-- `f"{abs(1.0):.8f}"` is `"1.00000000"`. -/
theorem fmt8abs_one : fmt8abs 1 = "1.00000000" := by
  rw [fmt8abs_eval 1 100000000 (by norm_num)]
  decide

/-- `f"{abs(2.0):.8f}"` is `"2.00000000"`. -/
theorem fmt8abs_two : fmt8abs 2 = "2.00000000" := by
  rw [fmt8abs_eval 2 200000000 (by norm_num)]
  decide

/-- `f"{abs(22.0):.8f}"` is `"22.00000000"`. -/
theorem fmt8abs_22 : fmt8abs 22 = "22.00000000" := by
  rw [fmt8abs_eval 22 2200000000 (by norm_num)]
  decide

/-- Description for one unit of `BTC`. -/
theorem buildDescription_BTC : buildDescription 1 "BTC" = "1.00000000 BTC" := by
  unfold buildDescription
  rw [fmt8abs_one]
  decide

/-- Description for two units of `ETH`. -/
theorem buildDescription_ETH : buildDescription 2 "ETH" = "2.00000000 ETH" := by
  unfold buildDescription
  rw [fmt8abs_two]
  decide

/-- Description for 22 units of `B20`: the asset symbol's trailing zero is
stripped. -/
theorem buildDescription_B20 : buildDescription 22 "B20" = "22.00000000 B2" := by
  unfold buildDescription
  rw [fmt8abs_22]
  decide

/-- The row sold at `2023-12-31 23:59:59` is accepted for tax year 2023. -/
theorem processRow_rowEndOf2023 :
    processRow 2023 rowEndOf2023 = .accepted recEndOf2023 false false := by
  have hin : (taxYearStart 2023 : ℚ) ≤ 1704067199 ∧
      (1704067199 : ℚ) ≤ (taxYearEnd 2023 : ℚ) := by
    rw [taxYearStart_2023, taxYearEnd_2023]
    norm_num
  rw [processRow_accepted_eval 2023 rowEndOf2023 1704067199 1700000000 (by decide) (by decide) hin]
  have hfl : (⌊((1704067199 : ℚ) - 1700000000) / 86400⌋ : ℤ) = 47 := by norm_num
  simp only [rowEndOf2023, clean_dollar100, clean_str40, clean_str60, clean_dash, hfl,
    bitwaveClassify_st 60 0 47 (by norm_num) rfl]
  simp only [RowResult.accepted.injEq]
  refine ⟨?_, ?_, ?_⟩
  · simp only [recEndOf2023, buildDescription_BTC]
  · exact decide_eq_false (by norm_num)
  · exact decide_eq_false (by norm_num)

/-- The same row is filtered out for tax year 2024. -/
theorem processRow_rowEndOf2023_2024 :
    processRow 2024 rowEndOf2023 = .filtered := by
  refine processRow_filtered_eval 2024 rowEndOf2023 1704067199 1700000000 (by decide) (by decide) ?_
  rw [taxYearStart_2024]
  intro hc
  have := hc.1
  norm_num at this

/-- The row sold at `2024-01-01 00:00:00` is filtered out for tax year 2023. -/
theorem processRow_rowStartOf2024 :
    processRow 2023 rowStartOf2024 = .filtered := by
  refine processRow_filtered_eval 2023 rowStartOf2024 1704067200 1700000000 (by decide) (by decide) ?_
  rw [taxYearEnd_2023]
  intro hc
  have := hc.2
  norm_num at this

/-- A missing sale timestamp rejects the row. -/
theorem processRow_rowBadTs : processRow 2023 rowBadTs = .rejected := rfl

/-- The both-columns-blank row is accepted for 2023 with `gain_loss = 0` and
a calculated-vs-Bitwave mismatch warning. -/
theorem processRow_rowBothZero :
    processRow 2023 rowBothZero = .accepted recBothZero true false := by
  have hin : (taxYearStart 2023 : ℚ) ≤ 1690000000 ∧
      (1690000000 : ℚ) ≤ (taxYearEnd 2023 : ℚ) := by
    rw [taxYearStart_2023, taxYearEnd_2023]
    norm_num
  rw [processRow_accepted_eval 2023 rowBothZero 1690000000 1650000000 (by decide) (by decide) hin]
  have hfl : (⌊((1690000000 : ℚ) - 1650000000) / 86400⌋ : ℤ) = 462 := by norm_num
  simp only [rowBothZero, clean_dollar100, clean_dollar40, clean_dash, hfl,
    bitwaveClassify_none 0 0 462 rfl rfl]
  simp only [RowResult.accepted.injEq]
  refine ⟨?_, ?_, ?_⟩
  · rw [show (decide ((462 : ℤ) ≤ 365)) = false from by decide]
    simp only [recBothZero, buildDescription_ETH]
  · exact decide_eq_true (by norm_num)
  · exact decide_eq_false (by norm_num)

/-- The `B20` row is accepted for 2023; its description loses the symbol's
trailing zero. -/
theorem processRow_rowB20 :
    processRow 2023 rowB20 = .accepted recB20 false false := by
  have hin : (taxYearStart 2023 : ℚ) ≤ 1704067199 ∧
      (1704067199 : ℚ) ≤ (taxYearEnd 2023 : ℚ) := by
    rw [taxYearStart_2023, taxYearEnd_2023]
    norm_num
  rw [processRow_accepted_eval 2023 rowB20 1704067199 1700000000 (by decide) (by decide) hin]
  have hfl : (⌊((1704067199 : ℚ) - 1700000000) / 86400⌋ : ℤ) = 47 := by norm_num
  simp only [rowB20, rowEndOf2023, clean_dollar100, clean_str40, clean_str60, clean_dash, hfl,
    bitwaveClassify_st 60 0 47 (by norm_num) rfl]
  simp only [RowResult.accepted.injEq]
  refine ⟨?_, ?_, ?_⟩
  · simp only [recB20, buildDescription_B20]
  · exact decide_eq_false (by norm_num)
  · exact decide_eq_false (by norm_num)

/-- `process_bitwave_transactions` on a single `sell` row reduces to one
loop step. -/
theorem process_singleton (y : ℕ) (row : Row) (h : row.action = "sell") :
    process_bitwave_transactions y [row] = processStep y ⟨[], 0, 0, 0, 0, 0⟩ row := by
  unfold process_bitwave_transactions
  simp [List.filter_cons, h]

/-- Stripping a character other than the space from the right of
`x ++ " " ++ a` only reaches the suffix `a`: the space blocks the strip. -/
theorem pyRstrip_append_space (c : Char) (hc : c ≠ ' ') (x a : String) :
    pyRstrip c (x ++ " " ++ a) = x ++ " " ++ pyRstrip c a := by
  have hc' : ¬ (' ' = c) := fun h => hc h.symm
  apply String.ext
  simp only [pyRstrip, String.data_append]
  rw [List.reverse_append, List.reverse_append, List.dropWhile_append]
  by_cases he : (a.data.reverse.dropWhile (fun d => d = c)).isEmpty
  · rw [if_pos he]
    rw [List.isEmpty_iff] at he
    simp [he, List.dropWhile_cons, hc']
  · rw [if_neg he]
    simp [List.reverse_append]

/-- C7 sub-result: the 23:59:59 boundary row is accepted for 2023. -/
theorem process_rowEndOf2023_2023 :
    process_bitwave_transactions 2023 [rowEndOf2023] = ⟨[recEndOf2023], 1, 0, 0, 0, 0⟩ := by
  rw [process_singleton 2023 rowEndOf2023 rfl]
  unfold processStep
  simp only [processRow_rowEndOf2023]
  simp

/-- C7 sub-result: the same row is counted as filtered (not an error) for
tax year 2024. -/
theorem process_rowEndOf2023_2024 :
    process_bitwave_transactions 2024 [rowEndOf2023] = ⟨[], 0, 0, 1, 0, 0⟩ := by
  rw [process_singleton 2024 rowEndOf2023 rfl]
  unfold processStep
  simp only [processRow_rowEndOf2023_2024]

/-- C7 sub-result: the midnight-of-2024 row is filtered out of 2023. -/
theorem process_rowStartOf2024_2023 :
    process_bitwave_transactions 2023 [rowStartOf2024] = ⟨[], 0, 0, 1, 0, 0⟩ := by
  rw [process_singleton 2023 rowStartOf2024 rfl]
  unfold processStep
  simp only [processRow_rowStartOf2024]

/-- C7 sub-result: a bad-data row is counted as an error, not filtered. -/
theorem process_rowBadTs_2023 :
    process_bitwave_transactions 2023 [rowBadTs] = ⟨[], 0, 1, 0, 0, 0⟩ := by
  rw [process_singleton 2023 rowBadTs rfl]
  unfold processStep
  simp only [processRow_rowBadTs]

/-- C7: tax-year filtering uses the closed range
`[Jan 1 00:00:00, Dec 31 23:59:59]`: a sale at exactly `2023-12-31 23:59:59`
is included for 2023 and excluded for 2024, and a sale at exactly
`2024-01-01 00:00:00` is excluded for 2023; excluded rows increment the
filtered-by-year counter, while rows with bad data increment the separate
error counter. -/
theorem claim_C7 :
    process_bitwave_transactions 2023 [rowEndOf2023] = ⟨[recEndOf2023], 1, 0, 0, 0, 0⟩ ∧
    process_bitwave_transactions 2024 [rowEndOf2023] = ⟨[], 0, 0, 1, 0, 0⟩ ∧
    process_bitwave_transactions 2023 [rowStartOf2024] = ⟨[], 0, 0, 1, 0, 0⟩ ∧
    process_bitwave_transactions 2023 [rowBadTs] = ⟨[], 0, 1, 0, 0, 0⟩ :=
  ⟨process_rowEndOf2023_2023, process_rowEndOf2023_2024,
   process_rowStartOf2024_2023, process_rowBadTs_2023⟩

/-- C1 counterexample: for `rowBothZero` both external classification
amounts are zero, the arithmetic gain `proceeds - cost_basis` is `60`, yet
the accepted record's `gain_loss` is `0`, not `60`. -/
theorem claim_C1_counterexample :
    (process_bitwave_transactions 2023 [rowBothZero]).transactions.map
        (fun t => t.gain_loss) = [0] ∧
    clean_bitwave_currency_value rowBothZero.shortTermGainLoss = 0 ∧
    clean_bitwave_currency_value rowBothZero.longTermGainLoss = 0 ∧
    clean_bitwave_currency_value rowBothZero.proceeds -
      clean_bitwave_currency_value rowBothZero.costBasisRelieved = 60 ∧
    (0 : ℚ) ≠ 60 := by
  have hp : process_bitwave_transactions 2023 [rowBothZero] = ⟨[recBothZero], 1, 0, 0, 1, 0⟩ := by
    rw [process_singleton 2023 rowBothZero rfl]
    unfold processStep
    simp only [processRow_rowBothZero]
    simp
  refine ⟨by rw [hp]; simp [recBothZero], clean_dash, clean_dash, ?_, by norm_num⟩
  show clean_bitwave_currency_value (.str "$100.00") -
    clean_bitwave_currency_value (.str "$40.00") = 60
  rw [clean_dollar100, clean_dollar40]
  norm_num

/-- C1 (amended): for every accepted row, an unambiguous external signal
fixes the term and the adopted amount; when both external amounts are zero,
the record is classified by `holding_days <= 365` and its `gain_loss` is the
sum of the two external amounts — that is, `0` — not
`proceeds - cost_basis`. -/
theorem claim_C1 :
    ∀ (y : ℕ) (row : Row) (t : Txn) (mw aw : Bool),
      processRow y row = .accepted t mw aw →
      (clean_bitwave_currency_value row.shortTermGainLoss ≠ 0 ∧
          clean_bitwave_currency_value row.longTermGainLoss = 0 →
        t.is_short_term = true ∧
          t.gain_loss = clean_bitwave_currency_value row.shortTermGainLoss) ∧
      (clean_bitwave_currency_value row.longTermGainLoss ≠ 0 ∧
          clean_bitwave_currency_value row.shortTermGainLoss = 0 →
        t.is_short_term = false ∧
          t.gain_loss = clean_bitwave_currency_value row.longTermGainLoss) ∧
      (clean_bitwave_currency_value row.shortTermGainLoss = 0 ∧
          clean_bitwave_currency_value row.longTermGainLoss = 0 →
        t.is_short_term = decide (t.holding_days ≤ 365) ∧ t.gain_loss = 0) := by
  intro y row t mw aw h
  obtain ⟨-, -, hgl, hist, -, -, -⟩ := processRow_accepted_inv y row t mw aw h
  refine ⟨fun hu => ?_, fun hu => ?_, fun hu => ?_⟩
  · constructor
    · rw [hist, bitwaveClassify_st _ _ _ hu.1 hu.2]
    · rw [hgl, bitwaveClassify_st _ _ _ hu.1 hu.2]
  · constructor
    · rw [hist, bitwaveClassify_lt _ _ _ hu.1 hu.2]
    · rw [hgl, bitwaveClassify_lt _ _ _ hu.1 hu.2]
  · constructor
    · rw [hist, bitwaveClassify_none _ _ _ hu.1 hu.2]
    · rw [hgl, bitwaveClassify_none _ _ _ hu.1 hu.2]

/-- Witness for C1 at `rowEndOf2023` (unambiguous short-term signal). -/
theorem claim_C1_witness :
    recEndOf2023.is_short_term = true ∧
      recEndOf2023.gain_loss = clean_bitwave_currency_value rowEndOf2023.shortTermGainLoss :=
  (claim_C1 2023 rowEndOf2023 recEndOf2023 false false processRow_rowEndOf2023).1
    ⟨by show clean_bitwave_currency_value (.str "60") ≠ 0
        rw [clean_str60]; norm_num,
     by show clean_bitwave_currency_value (.str "-") = 0
        exact clean_dash⟩

/-- C8: for every accepted row the arithmetic gain/loss is cross-checked —
the mismatch warning fires exactly when it differs from the adopted
`gain_loss` by more than `0.02` — and the adopted (classification-supplied)
value, not the computed one, is stored in the record. -/
theorem claim_C8 :
    ∀ (y : ℕ) (row : Row) (t : Txn) (mw aw : Bool),
      processRow y row = .accepted t mw aw →
      (mw = true ↔
        |(clean_bitwave_currency_value row.proceeds -
            clean_bitwave_currency_value row.costBasisRelieved) - t.gain_loss| > 1 / 50) ∧
      t.gain_loss = (bitwaveClassify (clean_bitwave_currency_value row.shortTermGainLoss)
          (clean_bitwave_currency_value row.longTermGainLoss) t.holding_days).2 := by
  intro y row t mw aw h
  obtain ⟨hp, hc, hgl, -, -, hmw, -⟩ := processRow_accepted_inv y row t mw aw h
  constructor
  · rw [hmw, hp, hc, decide_eq_true_eq]
  · exact hgl

/-- Witness for C8 at `rowEndOf2023`. -/
theorem claim_C8_witness :
    recEndOf2023.gain_loss =
      (bitwaveClassify (clean_bitwave_currency_value rowEndOf2023.shortTermGainLoss)
        (clean_bitwave_currency_value rowEndOf2023.longTermGainLoss)
        recEndOf2023.holding_days).2 :=
  (claim_C8 2023 rowEndOf2023 recEndOf2023 false false processRow_rowEndOf2023).2

/-- C9: the description is the quantity formatted to eight decimals, a
space, and the asset symbol, with trailing `'0'` and then `'.'` characters
stripped from the whole combined string — so only the asset's own trailing
zeros (protected from the quantity by the space) are removed, and an asset
like `"B20"` loses its final `'0'`. -/
theorem claim_C9 :
    (∀ (y : ℕ) (row : Row) (t : Txn) (mw aw : Bool),
      processRow y row = .accepted t mw aw →
      t.description = buildDescription row.assetUnitAdj row.asset) ∧
    (∀ (qty : ℚ) (asset : String),
      buildDescription qty asset =
        pyRstrip '.' (fmt8abs qty ++ " " ++ pyRstrip '0' asset)) ∧
    (process_bitwave_transactions 2023 [rowB20]).transactions.map
      (fun t => t.description) = ["22.00000000 B2"] := by
  refine ⟨?_, ?_, ?_⟩
  · intro y row t mw aw h
    exact (processRow_accepted_inv y row t mw aw h).2.2.2.2.1
  · intro qty asset
    unfold buildDescription
    rw [pyRstrip_append_space '0' (by decide) (fmt8abs qty) asset]
  · have hp : process_bitwave_transactions 2023 [rowB20] = ⟨[recB20], 1, 0, 0, 0, 0⟩ := by
      rw [process_singleton 2023 rowB20 rfl]
      unfold processStep
      simp only [processRow_rowB20]
      simp
    rw [hp]
    simp [recB20]

/-- Witness for C9 at `rowEndOf2023`. -/
theorem claim_C9_witness :
    recEndOf2023.description = buildDescription rowEndOf2023.assetUnitAdj rowEndOf2023.asset :=
  claim_C9.1 2023 rowEndOf2023 recEndOf2023 false false processRow_rowEndOf2023

/-- Concatenating the first `n` 14-record chunks of a list reproduces its
first `n * 14` elements. -/
theorem chunks_join (l : List Txn) (n : ℕ) :
    ((List.range n).map (fun p => (l.drop (p * 14)).take 14)).flatten = l.take (n * 14) := by
  induction n with
  | zero => simp
  | succ k ih =>
    rw [List.range_succ, List.map_append, List.flatten_append, ih]
    simp only [List.map_cons, List.map_nil, List.flatten_cons, List.flatten_nil, List.append_nil]
    rw [List.take_drop]
    have htt : l.take (k * 14) = (l.take (k * 14 + 14)).take (k * 14) := by
      rw [List.take_take]
      congr 1
      omega
    rw [htt, List.take_append_drop]
    congr 1
    omega

/-- C3: pagination splits the ordered list into consecutive chunks of
capacity 14 — concatenating the per-page slices in page order reproduces the
input exactly, every page but the last holds exactly 14 records, and an
empty input yields zero pages. -/
theorem claim_C3 :
    ∀ (transactions : List Txn),
      ((generate_form_8949_pages transactions).map (fun pg => pg.pageTxns)).flatten
        = transactions ∧
      (∀ pg ∈ generate_form_8949_pages transactions,
        pg.pageNum < numPages transactions → pg.pageTxns.length = 14) ∧
      (transactions = [] → generate_form_8949_pages transactions = []) := by
  intro l
  refine ⟨?_, ?_, ?_⟩
  · unfold generate_form_8949_pages
    rw [List.map_map]
    have hcomp : ((fun pg : RenderedPage => pg.pageTxns) ∘
        (fun p => ({ pageTxns := (l.drop (p * 14)).take 14
                     pageNum := p + 1
                     officialTotals := create_form_with_official_template_totals
                       ((l.drop (p * 14)).take 14) (p + 1) (numPages l) l
                     customTotals := create_custom_form_8949_totals
                       (p + 1) (numPages l) l } : RenderedPage)))
        = fun p => (l.drop (p * 14)).take 14 := rfl
    rw [hcomp, chunks_join]
    have hle : l.length ≤ numPages l * 14 := by
      unfold numPages
      omega
    exact List.take_of_length_le hle
  · intro pg hpg hlt
    unfold generate_form_8949_pages at hpg
    rw [List.mem_map] at hpg
    obtain ⟨p, hp, rfl⟩ := hpg
    rw [List.mem_range] at hp
    have hlt' : p + 1 < numPages l := hlt
    show ((l.drop (p * 14)).take 14).length = 14
    rw [List.length_take, List.length_drop]
    unfold numPages at hlt'
    omega
  · intro h
    subst h
    rfl

/-- Witness for C3: a 15-record list splits into pages concatenating back to
it, and the empty list yields zero pages. -/
theorem claim_C3_witness :
    ((generate_form_8949_pages (List.replicate 15 txn0)).map (fun pg => pg.pageTxns)).flatten
      = List.replicate 15 txn0 ∧
    generate_form_8949_pages ([] : List Txn) = [] :=
  ⟨(claim_C3 (List.replicate 15 txn0)).1, (claim_C3 []).2.2 rfl⟩

/-- C2: for every non-empty partition, both renderers draw the three
aggregate totals exactly on the final page, and those totals are the sums
over the entire partition list, not over the final page's records. -/
theorem claim_C2 :
    ∀ (transactions : List Txn), transactions ≠ [] →
      ∀ pg ∈ generate_form_8949_pages transactions,
        pg.officialTotals =
          (if pg.pageNum = numPages transactions
            then some (partitionTotals transactions) else none) ∧
        pg.customTotals =
          (if pg.pageNum = numPages transactions
            then some (partitionTotals transactions) else none) := by
  intro l hne pg hpg
  unfold generate_form_8949_pages at hpg
  rw [List.mem_map] at hpg
  obtain ⟨p, hp, rfl⟩ := hpg
  rw [List.mem_range] at hp
  constructor
  · show create_form_with_official_template_totals ((l.drop (p * 14)).take 14) (p + 1)
      (numPages l) l = if p + 1 = numPages l then some (partitionTotals l) else none
    unfold create_form_with_official_template_totals
    by_cases he : p + 1 = numPages l
    · have hl : 0 < l.length := List.length_pos.mpr hne
      have he' : p + 1 = numPages l := he
      have hlen : 0 < ((l.drop (p * 14)).take 14).length := by
        rw [List.length_take, List.length_drop]
        unfold numPages at he'
        omega
      rw [if_pos ⟨he, hlen⟩, if_pos he]
    · rw [if_neg (fun hc => he hc.1), if_neg he]
  · show create_custom_form_8949_totals (p + 1) (numPages l) l
      = if p + 1 = numPages l then some (partitionTotals l) else none
    unfold create_custom_form_8949_totals
    rfl

/-- Witness for C2 on the one-page partition `[txn0]`. -/
theorem claim_C2_witness :
    ({ pageTxns := [txn0]
       pageNum := 1
       officialTotals := create_form_with_official_template_totals [txn0] 1 (numPages [txn0]) [txn0]
       customTotals := create_custom_form_8949_totals 1 (numPages [txn0]) [txn0] }
        : RenderedPage).officialTotals =
      (if (1 : ℕ) = numPages [txn0] then some (partitionTotals [txn0]) else none) := by
  have hmem : ({ pageTxns := [txn0]
                 pageNum := 1
                 officialTotals := create_form_with_official_template_totals [txn0] 1
                   (numPages [txn0]) [txn0]
                 customTotals := create_custom_form_8949_totals 1 (numPages [txn0]) [txn0] }
                  : RenderedPage) ∈ generate_form_8949_pages [txn0] := by
    show _ ∈ [_]
    exact List.mem_singleton.mpr rfl
  exact (claim_C2 [txn0] (by simp) _ hmem).1

/-- C4: `separate_bitwave_transactions_by_term` is a stable total partition:
the two output lengths sum to the input length, a record lands in the
short-term list exactly when its flag is set (and in the long-term list
exactly when it is not), multiplicities are preserved, and both outputs are
sublists (order-preserving selections) of the input. -/
theorem claim_C4 :
    ∀ (transactions : List Txn),
      ((separate_bitwave_transactions_by_term transactions).1.length +
        (separate_bitwave_transactions_by_term transactions).2.length
          = transactions.length) ∧
      (∀ t : Txn, t ∈ (separate_bitwave_transactions_by_term transactions).1 ↔
        t ∈ transactions ∧ t.is_short_term = true) ∧
      (∀ t : Txn, t ∈ (separate_bitwave_transactions_by_term transactions).2 ↔
        t ∈ transactions ∧ t.is_short_term = false) ∧
      (∀ t : Txn,
        (separate_bitwave_transactions_by_term transactions).1.count t +
          (separate_bitwave_transactions_by_term transactions).2.count t
            = transactions.count t) ∧
      List.Sublist (separate_bitwave_transactions_by_term transactions).1 transactions ∧
      List.Sublist (separate_bitwave_transactions_by_term transactions).2 transactions := by
  intro l
  refine ⟨?_, ?_, ?_, ?_, List.filter_sublist l, List.filter_sublist l⟩
  · show (l.filter (fun t => t.is_short_term)).length +
      (l.filter (fun t => !t.is_short_term)).length = l.length
    induction l with
    | nil => rfl
    | cons a tl ih =>
      cases ha : a.is_short_term <;> simp [List.filter_cons, ha] <;> omega
  · intro t
    show t ∈ l.filter (fun t => t.is_short_term) ↔ _
    rw [List.mem_filter]
  · intro t
    show t ∈ l.filter (fun t => !t.is_short_term) ↔ _
    rw [List.mem_filter, Bool.not_eq_true']
  · intro t
    show (l.filter (fun t => t.is_short_term)).count t +
      (l.filter (fun t => !t.is_short_term)).count t = l.count t
    cases ht : t.is_short_term
    · have h1 : (l.filter (fun t => t.is_short_term)).count t = 0 := by
        rw [List.count_eq_zero]
        intro hmem
        rw [List.mem_filter, ht] at hmem
        exact absurd hmem.2 (by simp)
      rw [h1, List.count_filter (by rw [ht]; rfl)]
      omega
    · have h2 : (l.filter (fun t => !t.is_short_term)).count t = 0 := by
        rw [List.count_eq_zero]
        intro hmem
        rw [List.mem_filter, ht] at hmem
        exact absurd hmem.2 (by simp)
      rw [h2, List.count_filter (by rw [ht])]
      omega

/-- Witness for C4: membership characterization at a concrete record. -/
theorem claim_C4_witness :
    txn0 ∈ (separate_bitwave_transactions_by_term [txn0]).1 ↔
      txn0 ∈ [txn0] ∧ txn0.is_short_term = true :=
  (claim_C4 [txn0]).2.1 txn0

end Form8949
